import Mathlib

/-!
Shallow embedding of `src/magicbox.py`, the NFC-tag dispatch engine of the
magicbox repository.  The external world (subprocess results, the CEC bus,
the `sonos` CLI, the NFC reader, the vlc renderer process) is modelled by an
explicit environment `MagicBox.Env`; every externally visible side effect of
the program is recorded, in order, in a trace of `MagicBox.Effect`s.
Feedback sounds (`play_sound`) appear in the trace as `Effect.sound`,
console output as `Effect.print`; everything else in the trace is a
transport call.
-/

namespace MagicBox

/-- One observable side effect of the program: a feedback sound
(`play_sound`), a console print, a `sonos ROOM args` CLI invocation (the
fixed room argument is elided), a `cec-client` invocation identified by the
command written to its stdin, terminating / force-killing the recorded vlc
process, the `pkill vlc` sweep, or spawning `cvlc` on a URL. -/
inductive Effect where
  | sound (kind : String)
  | print (msg : String)
  | sonos (args : List String)
  | cec (input : String)
  | vlcTerminate
  | vlcKill
  | pkillVlc
  | launchVlc (url : String)
deriving DecidableEq, Repr

abbrev Trace := List Effect

/-- `true` exactly on the trace entries that are calls into a transport
(audio transport = sonos, display transport = cec, video renderer = the
vlc entries); feedback sounds and console prints are not transports. -/
def Effect.isTransport : Effect → Bool
  | .sound _ => false
  | .print _ => false
  | _ => true

/-- `true` exactly on console prints. -/
def Effect.isPrint : Effect → Bool
  | .print _ => true
  | _ => false

/-- `true` exactly on `cvlc` launches (the video renderer start primitive). -/
def Effect.isLaunchVlc : Effect → Bool
  | .launchVlc _ => true
  | _ => false

/-- `true` exactly on `sonos ... play_sharelink ...` calls (the audio-stream
play primitive used only by `play_music`). -/
def Effect.isShareLinkCall : Effect → Bool
  | .sonos ("play_sharelink" :: _) => true
  | _ => false

/-- `true` exactly on `sonos ... clear_queue` calls (used only by
`play_music`). -/
def Effect.isClearQueueCall : Effect → Bool
  | .sonos ("clear_queue" :: _) => true
  | _ => false

/-- Environment: the outcomes of the external collaborators for one
dispatch.  `sonos args` gives the `(returncode, stripped stdout, stripped
stderr)` of `subprocess.run(["sonos", ROOM] + args)` (`run_sonos_command`);
`tvReportsOn` is whether the `cec-client` power query output contains
`power status: on`; `cecRaises` models every `subprocess.run(['cec-client',
...])` call raising an exception; `gracefulTermOk` models
`vlc_process.wait(timeout=2)` finishing within the grace period;
`newHandle` is the handle of a freshly spawned `cvlc` process. -/
structure Env where
  tvReportsOn : Bool
  cecRaises : Bool
  gracefulTermOk : Bool
  newHandle : Nat
  sonos : List String → Int × String × String

/-- The process-wide mutable playback state: the `self.vlc_process` field
of the `MagicBox` class (`None` or a process handle). -/
structure BoxState where
  vlcProcess : Option Nat
deriving DecidableEq, Repr

/-- Python string truthiness of an optional string: `None` and `""` are
falsy, everything else truthy. -/
def pyTruthy : Option String → Bool
  | none => false
  | some s => !(s == "")

/-- Python `a or b` for `a` an optional string: returns `b` when `a` is
falsy (`None` or empty). -/
def pyOrStr (a : Option String) (b : String) : String :=
  match a with
  | some t => if t = "" then b else t
  | none => b

/-- Python `s.lower()` (for the basic-latin letters the tags carry). -/
def pyLower (s : String) : String := String.mk (s.data.map Char.toLower)

/-- Split a character list at its first `':'`: `none` when no colon occurs,
otherwise the part before and the part after the first colon.  This is
Python `s.split(":", 1)` restricted to the guarded case, and
`(splitAtColon l).isSome` is Python `":" in s`. -/
def splitAtColon : List Char → Option (List Char × List Char)
  | [] => none
  | c :: rest =>
    if c = ':' then some ([], rest)
    else
      match splitAtColon rest with
      | some (a, b) => some (c :: a, b)
      | none => none

/-- `splitAtColon` lifted to `String`. -/
def splitC (s : String) : Option (String × String) :=
  (splitAtColon s.data).map fun p => (String.mk p.1, String.mk p.2)

/-- The value of a digit list as a natural number, `none` if empty or any
character is not a decimal digit. -/
def digitsVal (l : List Char) : Option Nat :=
  if l = [] then none
  else l.foldl
    (fun acc c => acc.bind fun n => if c.isDigit then some (n * 10 + (c.toNat - 48)) else none)
    (some 0)

/-- Python `int(s)` on an already-stripped string: optional sign followed by
decimal digits; `none` models `int` raising `ValueError`. -/
def pyInt? (s : String) : Option Int :=
  match s.data with
  | '-' :: ds => (digitsVal ds).map fun n => -(n : Int)
  | '+' :: ds => (digitsVal ds).map fun n => (n : Int)
  | ds => (digitsVal ds).map fun n => (n : Int)

/-- `is_tv_on`: one cec power query; `True` iff the query ran without
raising and its output reports `power status: on` (an exception is caught
inside and yields `False`). -/
def is_tv_on (env : Env) : Bool × Trace :=
  (!env.cecRaises && env.tvReportsOn, [.cec "pow 0"])

/-- `tv_on`: if the TV already reports on, only switch input; otherwise
power on, wait, and switch input.  A raising cec call makes the whole
function return `False` via its `except` clause (the power-on `run` is the
first call inside `tv_on`'s own `try` that can raise, the power query's
exception being caught inside `is_tv_on`). -/
def tv_on (env : Env) : Bool × Trace :=
  let q := is_tv_on env
  if q.1 then
    (true, q.2 ++ [.print "📺 TV already on, switching input...", .cec "as", .print "✅ TV ready"])
  else if env.cecRaises then
    (false, q.2 ++ [.print "📺 Turning on TV...", .cec "on 0"])
  else
    (true, q.2 ++ [.print "📺 Turning on TV...", .cec "on 0",
                   .print "📺 Waiting 3 seconds...", .print "📺 Switching to Pi input...",
                   .cec "as", .print "✅ TV ready"])

/-- `tv_off`: one standby command; `False` when the cec call raises. -/
def tv_off (env : Env) : Bool × Trace :=
  (!env.cecRaises, [.print "📺 Turning off TV...", .cec "standby 0"])

/-- `stop_video`: when a vlc process is recorded, terminate it (force-kill
if the 2-second graceful wait fails) and clear the handle; in every case
sweep stray vlc processes with `pkill vlc`. -/
def stop_video (env : Env) (s : BoxState) : BoxState × Trace :=
  match s.vlcProcess with
  | some _ =>
    ({ vlcProcess := none },
     [.print "⏹️ Stopping video...", .vlcTerminate] ++
       (if env.gracefulTermOk then [] else [.vlcKill]) ++ [.pkillVlc])
  | none => (s, [.pkillVlc])

/-- `play_video`: stop the current video, stop sonos playback, run the
`tv_on` sequence, then spawn `cvlc` on the URL non-blockingly and record
the new process handle; returns `True` once the renderer is launched. -/
def play_video (env : Env) (s : BoxState) (url : String) (title : Option String) :
    BoxState × Trace × Bool :=
  let t0 := [Effect.print ("🎬 Playing video: " ++ pyOrStr title url)]
  let r1 := stop_video env s
  let t2 := [Effect.sonos ["stop"]]
  let r3 := tv_on env
  ({ vlcProcess := some env.newHandle },
   t0 ++ r1.2 ++ t2 ++ r3.2 ++
     [.launchVlc url, .print "✅ Video playing (scan another card to control)"],
   true)

/-- `play_music`: stop any video, turn the TV off, clear the sonos queue,
submit the URL as a share link; on success set shuffle on or off per the
intent and report the title (`card_name` or the generic label), on failure
report the transport's stderr text. -/
def play_music (env : Env) (s : BoxState) (url : String) (title : Option String)
    (shuffle : Bool) : BoxState × Trace × Bool :=
  let r1 := stop_video env s
  let r2 := tv_off env
  let t3 := [Effect.sonos ["clear_queue"]]
  let share := env.sonos ["play_sharelink", url]
  let t4 := [Effect.sonos ["play_sharelink", url]]
  if share.1 = 0 then
    if shuffle then
      (r1.1, r1.2 ++ r2.2 ++ t3 ++ t4 ++
        [.sonos ["shuffle", "on"],
         .print ("🔀 Playing shuffled: " ++ pyOrStr title "Music from tag")], true)
    else
      (r1.1, r1.2 ++ r2.2 ++ t3 ++ t4 ++
        [.sonos ["shuffle", "off"],
         .print ("▶️ Playing: " ++ pyOrStr title "Music from tag")], true)
  else
    (r1.1, r1.2 ++ r2.2 ++ t3 ++ t4 ++ [.print ("❌ Failed: " ++ share.2.2)], false)

/-- `adjust_volume`: query the current volume; when the query succeeds,
set the volume to `max(0, min(60, current + delta))` and print the
resulting percentage.  The `Bool` is `true` when `int(volume)` raises
`ValueError` (non-numeric stdout), which propagates to the caller. -/
def adjust_volume (env : Env) (delta : Int) : Trace × Bool :=
  let q := env.sonos ["volume"]
  let t0 := [Effect.sonos ["volume"]]
  if q.1 = 0 then
    match pyInt? q.2.1 with
    | some current =>
      let new_volume := max 0 (min 60 (current + delta))
      (t0 ++ [.sonos ["volume", toString new_volume],
              .print ((if delta > 0 then "🔊 " else "🔉 ") ++ toString new_volume ++ "%")],
       false)
    | none => (t0, true)
  else (t0, false)

/-- `handle_control`: the command dispatch table.  Tuple entries forward a
single sonos primitive and report per its status code; callable entries run
the callable and then unconditionally play the success sound and print the
command.  Result: (state, trace, exception-propagated?). -/
def handle_control (env : Env) (s : BoxState) (command : String) :
    BoxState × Trace × Bool :=
  if command = "play" then
    let r := env.sonos ["play"]
    (s, [.sonos ["play"], .sound (if r.1 = 0 then "success" else "error"),
         .print (if r.1 = 0 then "▶️ Playing" else "❌ Failed: " ++ r.2.2)], false)
  else if command = "stop" then
    let r := stop_video env s
    (r.1, r.2 ++ [.sonos ["stop"], .sound "success", .print "✅ stop"], false)
  else if command = "next" then
    let r := env.sonos ["next"]
    (s, [.sonos ["next"], .sound (if r.1 = 0 then "success" else "error"),
         .print (if r.1 = 0 then "⏭️ Next track" else "❌ Failed: " ++ r.2.2)], false)
  else if command = "prev" then
    let r := env.sonos ["previous"]
    (s, [.sonos ["previous"], .sound (if r.1 = 0 then "success" else "error"),
         .print (if r.1 = 0 then "⏮️ Previous track" else "❌ Failed: " ++ r.2.2)], false)
  else if command = "vol_up" then
    let r := adjust_volume env 5
    if r.2 then (s, r.1, true)
    else (s, r.1 ++ [.sound "success", .print "✅ vol_up"], false)
  else if command = "vol_down" then
    let r := adjust_volume env (-5)
    if r.2 then (s, r.1, true)
    else (s, r.1 ++ [.sound "success", .print "✅ vol_down"], false)
  else if command = "tv_on" then
    let r := tv_on env
    (s, r.2 ++ [.sound "success", .print "✅ tv_on"], false)
  else if command = "tv_off" then
    let r := tv_off env
    (s, r.2 ++ [.sound "success", .print "✅ tv_off"], false)
  else
    (s, [.sound "error"], false)

/-- One record of a scanned tag: an `urn:nfc:wkt:T` text record, an
`urn:nfc:wkt:U` URI record, or a record of any other type (skipped by the
parse loop). -/
inductive NdefRecord where
  | text (t : String)
  | uri (u : String)
  | other (typ : String)
deriving DecidableEq, Repr

/-- The card settings accumulated by `on_connect`'s parse loop. -/
structure ParsedIntent where
  card_name : Option String
  content_type : Option String
  shuffle : Bool
  url : Option String
deriving DecidableEq, Repr

/-- The initial card settings (`None`/`False` everywhere). -/
def ParsedIntent.init : ParsedIntent :=
  { card_name := none, content_type := none, shuffle := false, url := none }

/-- One step of the parse loop in `on_connect`: a text record containing a
colon is split (identifier from the lowered text, `name` content from the
original text, `mode`/`type` content from the lowered text); a URI record
overwrites `url`; anything else is skipped.  The second component is the
console output of the step. -/
def processRecord (acc : ParsedIntent) (r : NdefRecord) : ParsedIntent × Trace :=
  match r with
  | .uri u => ({ acc with url := some u }, [])
  | .other _ => (acc, [])
  | .text t =>
    match splitC t with
    | none => (acc, [])
    | some orig =>
      match splitC (pyLower t) with
      | none => (acc, [])
      | some lo =>
        if lo.1 = "name" then
          ({ acc with card_name := some orig.2 },
           [.print ("\n💳 Card: " ++ orig.2)])
        else if lo.1 = "mode" && lo.2 = "shuffle" then
          ({ acc with shuffle := true }, [])
        else if lo.1 = "type" then
          ({ acc with content_type := some lo.2 }, [])
        else (acc, [])

/-- Fold step threading the accumulated settings and console output. -/
def parseStep (p : ParsedIntent × Trace) (r : NdefRecord) : ParsedIntent × Trace :=
  let q := processRecord p.1 r
  (q.1, p.2 ++ q.2)

/-- The whole parse loop of `on_connect` over a record list. -/
def parseRecords (records : List NdefRecord) : ParsedIntent × Trace :=
  records.foldl parseStep (ParsedIntent.init, [])

/-- The eight recognized bare control tokens. -/
def validCommands : List String :=
  ["play", "stop", "next", "prev", "vol_up", "vol_down", "tv_on", "tv_off"]

/-- The control-command scan of `on_connect`: the first text record without
a colon whose lowered text is a recognized token (records failing either
test are skipped, the loop continues). -/
def findCommand : List NdefRecord → Option String
  | [] => none
  | .text t :: rest =>
    if (splitC t).isNone && validCommands.contains (pyLower t) then some (pyLower t)
    else findCommand rest
  | _ :: rest => findCommand rest

/-- `startsWithChars pat l` is true iff `pat` is an initial segment of `l`. -/
def startsWithChars : List Char → List Char → Bool
  | [], _ => true
  | _ :: _, [] => false
  | a :: pat, b :: l => a == b && startsWithChars pat l

/-- `strStartsWith p s`: `s` begins with `p`. -/
def strStartsWith (p s : String) : Bool := startsWithChars p.data s.data

/-- The streaming-service allow-list test: the anchored regex
`^https?://(open\.spotify\.com|music\.apple\.com|tidal\.com|www\.deezer\.com)/`
of `on_connect` — every dot escaped and everything anchored at the start,
so it is exactly a test that the url begins with one of the eight
scheme+host+slash combinations. -/
def allowMatch (u : String) : Bool :=
  ["https://open.spotify.com/", "https://music.apple.com/",
   "https://tidal.com/", "https://www.deezer.com/",
   "http://open.spotify.com/", "http://music.apple.com/",
   "http://tidal.com/", "http://www.deezer.com/"].any fun p => strStartsWith p u

/-- The `if`/`elif` dispatch chain of `on_connect`, run after the parse
loop: video branch, allow-listed music branch, bare-command branch (only
when `url` is falsy), otherwise the unsupported report.  The final `Bool`
is the value `on_connect` returns (`False` exactly when an exception
escaped the dispatched action and was caught by `on_connect`). -/
def dispatch (env : Env) (s : BoxState) (records : List NdefRecord)
    (acc : ParsedIntent) : BoxState × Trace × Bool :=
  if (acc.content_type == some "video") && pyTruthy acc.url then
    let r := play_video env s (acc.url.getD "") acc.card_name
    (r.1, r.2.1 ++ [.sound (if r.2.2 then "success" else "error")], true)
  else if pyTruthy acc.url && allowMatch (acc.url.getD "") then
    let r := play_music env s (acc.url.getD "") acc.card_name acc.shuffle
    (r.1, r.2.1 ++ [.sound (if r.2.2 then "success" else "error")], true)
  else if !pyTruthy acc.url then
    match findCommand records with
    | some cmd =>
      let r := handle_control env s cmd
      if r.2.2 then (r.1, r.2.1 ++ [.sound "error"], false)
      else (r.1, r.2.1, true)
    | none =>
      (s, [.print "❌ No supported content found on tag", .sound "error"], true)
  else
    (s, [.print "❌ No supported content found on tag", .sound "error"], true)

/-- `on_connect`: scan cue, invalid-tag short circuit when the tag has no
NDEF payload, otherwise parse the records and dispatch. -/
def on_connect (env : Env) (s : BoxState) (tag : Option (List NdefRecord)) :
    BoxState × Trace × Bool :=
  match tag with
  | none =>
    (s, [.sound "scan", .print "❌ Not a valid NDEF tag", .sound "error"], true)
  | some records =>
    let p := parseRecords records
    let r := dispatch env s records p.1
    (r.1, Effect.sound "scan" :: (p.2 ++ r.2.1), r.2.2)

/-- The two reader device paths `setup_nfc` tries. -/
def nfcPaths : List String := ["tty:ttyS0:pn532", "tty:ttyAMA0:pn532"]

/-- `setup_nfc`: succeeds iff constructing the contactless frontend
succeeds on at least one of the known paths (`pathOk`). -/
def setup_nfc (pathOk : String → Bool) : Bool := nfcPaths.any pathOk

/-- How `MagicBox.start` ends: either it returns at once after the failed
reader setup, or it enters the listener loop / idle wait. -/
inductive StartOutcome where
  | failedReturn
  | enteredLoop
deriving DecidableEq, Repr

/-- `MagicBox.start`: on reader-setup failure, print the failure, play the
error sound and return; otherwise print the banner, play the info sound and
enter the listener loop. -/
def start (room : String) (pathOk : String → Bool) : StartOutcome × Trace :=
  if setup_nfc pathOk then
    (.enteredLoop,
     [.print "\n✨ Magic Box Ready", .print ("🔈 Sonos: " ++ room),
      .print "📺 TV Control: Enabled (with smart detection)",
      .print "🎬 Video Playback: Enabled",
      .print "🎮 Universal Controls: stop, vol_up, vol_down",
      .print "\nScan tag to begin... (Ctrl+C or Ctrl+Z to quit)",
      .sound "info"])
  else
    (.failedReturn, [.print "❌ NFC setup failed", .sound "error"])

/-- `main`: `some n` means the process terminates with exit status `n`
without ever entering the listener loop (`sys.exit(1)` on a wrong argument
count; falling off the end of `main` — exit status 0 — when `start`
returns after the failed reader setup); `none` means the listener loop is
entered.  `argv` is `sys.argv`, program name included. -/
def mainOutcome (argv : List String) (pathOk : String → Bool) : Option Nat :=
  if argv.length ≠ 2 then some 1
  else
    match (start (argv.getD 1 "") pathOk).1 with
    | .failedReturn => some 0
    | .enteredLoop => none

/-- The URI carried by a record, if it is a URI record. -/
def uriOf : NdefRecord → Option String
  | .uri u => some u
  | _ => none

/-- Specification-side description for the amended C2: the uri of the last
URI record of the scan (scanning from the end, the first URI record found),
`none` when the scan carries no URI record. -/
def lastUri : List NdefRecord → Option String
  | [] => none
  | r :: rest =>
    match lastUri rest with
    | some u => some u
    | none => uriOf r

/-- A benign environment: TV reports on, no cec exceptions, graceful
termination succeeds, every sonos call succeeds with empty output. -/
def envA : Env :=
  { tvReportsOn := true, cecRaises := false, gracefulTermOk := true,
    newHandle := 7, sonos := fun _ => (0, "", "") }

/-- Initial playback state: no video process recorded. -/
def stateA : BoxState := { vlcProcess := none }

/-- An environment whose volume query reports 30 and whose other sonos
calls fail. -/
def envVol : Env :=
  { tvReportsOn := true, cecRaises := false, gracefulTermOk := true,
    newHandle := 0,
    sonos := fun args => if args = ["volume"] then (0, "30", "") else (1, "", "err") }

end MagicBox

namespace MagicBox

theorem char_toNat_ofNat (n : Nat) (hv : n.isValidChar) : (Char.ofNat n).toNat = n := by
  rw [Char.ofNat, dif_pos hv]
  rfl

theorem toLower_eq_colon {c : Char} (h : c.toLower = ':') : c = ':' := by
  simp only [Char.toLower] at h
  split at h
  case isTrue hn =>
    exfalso
    have hv : Nat.isValidChar (c.toNat + 32) := by
      constructor
      omega
    have h2 := congrArg Char.toNat h
    rw [char_toNat_ofNat _ hv] at h2
    have h58 : (':' : Char).toNat = 58 := by decide
    omega
  case isFalse => exact h

theorem splitAtColon_append (a b : List Char) (ha : ':' ∉ a) :
    splitAtColon (a ++ ':' :: b) = some (a, b) := by
  induction a with
  | nil => simp [splitAtColon]
  | cons c rest ih =>
    have hc : ¬(c = ':') := fun h => ha (h ▸ List.mem_cons_self c rest)
    have hr : ':' ∉ rest := fun h => ha (List.mem_cons_of_mem c h)
    simp [splitAtColon, hc, ih hr]

theorem splitAtColon_eq_append {l a b : List Char} (h : splitAtColon l = some (a, b)) :
    l = a ++ ':' :: b := by
  induction l generalizing a b with
  | nil => simp [splitAtColon] at h
  | cons c rest ih =>
    unfold splitAtColon at h
    by_cases hc : c = ':'
    · rw [if_pos hc] at h
      cases h
      simp [hc]
    · rw [if_neg hc] at h
      cases hs : splitAtColon rest with
      | none => rw [hs] at h; cases h
      | some p =>
        obtain ⟨a1, b1⟩ := p
        rw [hs] at h
        cases h
        simp [ih hs]

theorem string_data_mk (l : List Char) : (String.mk l).data = l := rfl

theorem splitC_of_append (a c : String) (h : ':' ∉ a.data) :
    splitC (a ++ ":" ++ c) = some (a, c) := by
  have hd : (a ++ ":" ++ c).data = a.data ++ ':' :: c.data := by
    simp [String.data_append]
  simp only [splitC, hd, splitAtColon_append a.data c.data h]
  rfl

theorem splitC_eq_append {s a b : String} (h : splitC s = some (a, b)) :
    s = a ++ ":" ++ b := by
  unfold splitC at h
  cases hs : splitAtColon s.data with
  | none => rw [hs] at h; cases h
  | some p =>
    obtain ⟨p1, p2⟩ := p
    rw [hs] at h
    injection h with h2
    rw [Prod.mk.injEq] at h2
    obtain ⟨ha, hb⟩ := h2
    subst ha
    subst hb
    have hdata := splitAtColon_eq_append hs
    apply String.ext
    simp [String.data_append, hdata]

theorem pyLower_append (a b : String) : pyLower (a ++ b) = pyLower a ++ pyLower b := by
  apply String.ext
  simp [pyLower, String.data_append]

theorem pyLower_colon : pyLower ":" = ":" := by decide

theorem colon_not_mem_pyLower {s : String} (h : ':' ∉ s.data) : ':' ∉ (pyLower s).data := by
  intro hmem
  simp only [pyLower, string_data_mk, List.mem_map] at hmem
  obtain ⟨x, hx, hlx⟩ := hmem
  exact h (toLower_eq_colon hlx ▸ hx)

end MagicBox

namespace MagicBox

theorem processRecord_trace_prints (acc : ParsedIntent) (r : NdefRecord) :
    ((processRecord acc r).2).all Effect.isPrint = true := by
  cases r with
  | uri u => rfl
  | other t => rfl
  | text t =>
    simp only [processRecord]
    split
    · rfl
    · split
      · rfl
      · split
        · simp [Effect.isPrint]
        · split
          · rfl
          · split
            · rfl
            · rfl

theorem parseRecords_trace_prints (records : List NdefRecord) :
    ((parseRecords records).2).all Effect.isPrint = true := by
  suffices h : ∀ p : ParsedIntent × Trace, p.2.all Effect.isPrint = true →
      ((records.foldl parseStep p).2).all Effect.isPrint = true by
    exact h (ParsedIntent.init, []) rfl
  induction records with
  | nil => exact fun p hp => hp
  | cons r rest ih =>
    intro p hp
    simp only [List.foldl_cons]
    refine ih _ ?_
    simp [parseStep, List.all_append, hp, processRecord_trace_prints]

theorem processRecord_content_type {acc : ParsedIntent} {r : NdefRecord} {ct : String}
    (h : (processRecord acc r).1.content_type = some ct) :
    acc.content_type = some ct ∨ ∃ t, r = NdefRecord.text t ∧ pyLower t = "type:" ++ ct := by
  cases r with
  | uri u => exact Or.inl h
  | other t => exact Or.inl h
  | text t =>
    simp only [processRecord] at h
    split at h
    · exact Or.inl h
    · split at h
      · exact Or.inl h
      · split at h
        · exact Or.inl h
        · split at h
          · exact Or.inl h
          · split at h
            · rename_i orig horig lo hlo hname hmode htype
              refine Or.inr ⟨t, rfl, ?_⟩
              have heq := splitC_eq_append hlo
              have hct : lo.2 = ct := by simpa using h
              have hta : ("type" ++ ":" : String) = "type:" := by decide
              rw [heq, htype, hct, hta]
            · exact Or.inl h

theorem parse_content_type_src {records : List NdefRecord} {ct : String}
    (h : (parseRecords records).1.content_type = some ct) :
    ∃ t, NdefRecord.text t ∈ records ∧ pyLower t = "type:" ++ ct := by
  suffices haux : ∀ (l : List NdefRecord) (p : ParsedIntent × Trace),
      ((l.foldl parseStep p).1.content_type = some ct) →
      p.1.content_type = some ct ∨ ∃ t, NdefRecord.text t ∈ l ∧ pyLower t = "type:" ++ ct by
    rcases haux records (ParsedIntent.init, []) h with h2 | h2
    · simp [ParsedIntent.init] at h2
    · exact h2
  intro l
  induction l with
  | nil => exact fun p hp => Or.inl hp
  | cons r rest ih =>
    intro p hp
    simp only [List.foldl_cons] at hp
    rcases ih (parseStep p r) hp with h2 | h2
    · have h3 : (processRecord p.1 r).1.content_type = some ct := h2
      rcases processRecord_content_type h3 with h4 | ⟨t, ht, hlt⟩
      · exact Or.inl h4
      · exact Or.inr ⟨t, by simp [ht], hlt⟩
    · obtain ⟨t, ht, hlt⟩ := h2
      exact Or.inr ⟨t, List.mem_cons_of_mem _ ht, hlt⟩

theorem processRecord_url (acc : ParsedIntent) (r : NdefRecord) :
    (processRecord acc r).1.url =
      match uriOf r with
      | some u => some u
      | none => acc.url := by
  cases r with
  | uri u => rfl
  | other t => rfl
  | text t =>
    simp only [processRecord, uriOf]
    cases splitC t with
    | none => rfl
    | some orig =>
      cases splitC (pyLower t) with
      | none => rfl
      | some lo =>
        by_cases h1 : lo.1 = "name"
        · simp [h1]
        · by_cases h2 : lo.1 = "mode" && lo.2 = "shuffle"
          · simp [h1, h2]
          · by_cases h3 : lo.1 = "type" <;> simp [h1, h2, h3]

theorem parse_url_aux (l : List NdefRecord) (p : ParsedIntent × Trace) :
    (l.foldl parseStep p).1.url =
      match lastUri l with
      | some u => some u
      | none => p.1.url := by
  induction l generalizing p with
  | nil => simp [lastUri]
  | cons r rest ih =>
    simp only [List.foldl_cons, lastUri]
    rw [ih]
    cases hl : lastUri rest with
    | some u => simp
    | none =>
      have hstep : (parseStep p r).1.url = (processRecord p.1 r).1.url := rfl
      rw [hstep, processRecord_url]

theorem stop_video_clears (env : Env) (s : BoxState) :
    ((stop_video env s).1).vlcProcess = none := by
  cases h : s.vlcProcess <;> simp [stop_video, h]

theorem prints_not_transport {t : Trace} (h : t.all Effect.isPrint = true) :
    (t.all fun e => !e.isTransport) = true := by
  rw [List.all_eq_true] at h ⊢
  intro e he
  have hp := h e he
  cases e <;> simp_all [Effect.isPrint, Effect.isTransport]

theorem prints_no_audio_video {t : Trace} (h : t.all Effect.isPrint = true) :
    t.any Effect.isShareLinkCall = false ∧ t.any Effect.isClearQueueCall = false ∧
      t.any Effect.isLaunchVlc = false := by
  rw [List.all_eq_true] at h
  refine ⟨?_, ?_, ?_⟩ <;>
  · rw [List.any_eq_false]
    intro e he
    have hp := h e he
    cases e <;>
      simp_all [Effect.isPrint, Effect.isShareLinkCall, Effect.isClearQueueCall,
        Effect.isLaunchVlc]

end MagicBox

namespace MagicBox

/-- C1 counterexample: with a correct argument count but a reader that
fails on every known path, the process terminates with exit status 0 (it
falls off the end of `main` after `start` returns), not with exit status 1
as claimed. -/
theorem c1_counterexample :
    mainOutcome ["magic_box.py", "Kitchen"] (fun _ => false) = some 0 ∧
      mainOutcome ["magic_box.py", "Kitchen"] (fun _ => false) ≠ some 1 := by
  constructor
  · rfl
  · decide

/-- C1 (amended): a wrong argument count (no room argument, or more than
one) exits with code 1; when reader initialization fails on every known
path, the process reports the failure (console message plus error cue) and
terminates without entering the listener loop, but with exit status 0, not
1. -/
theorem c1_exit_behavior (argv : List String) (pathOk : String → Bool) :
    (argv.length ≠ 2 → mainOutcome argv pathOk = some 1) ∧
      (argv.length = 2 → (∀ p ∈ nfcPaths, pathOk p = false) →
        mainOutcome argv pathOk = some 0 ∧
          (start (argv.getD 1 "") pathOk).2 =
            [Effect.print "❌ NFC setup failed", Effect.sound "error"]) := by
  constructor
  · intro h
    simp [mainOutcome, h]
  · intro h2 hfail
    have hsetup : setup_nfc pathOk = false := by
      simp only [setup_nfc, List.any_eq_false]
      intro p hp
      simp [hfail p hp]
    constructor
    · simp [mainOutcome, h2, start, hsetup]
    · simp [start, hsetup]

/-- C1 witness: a missing room argument exits 1; with both reader paths
failing, the process ends with exit status 0. -/
theorem c1_witness :
    mainOutcome ["magic_box.py"] (fun _ => false) = some 1 ∧
      mainOutcome ["magic_box.py", "Kitchen"] (fun _ => false) = some 0 := by
  constructor
  · exact (c1_exit_behavior ["magic_box.py"] (fun _ => false)).1 (by decide)
  · exact ((c1_exit_behavior ["magic_box.py", "Kitchen"] (fun _ => false)).2 rfl
      (fun p _ => rfl)).1

/-- C2 counterexample: a scan with two URI records parses to the uri of
the second (last) record, not the first as claimed. -/
theorem c2_counterexample :
    (parseRecords [NdefRecord.uri "https://a/", NdefRecord.uri "https://b/"]).1.url ≠
        some "https://a/" ∧
      (parseRecords [NdefRecord.uri "https://a/", NdefRecord.uri "https://b/"]).1.url =
        some "https://b/" := by
  constructor
  · decide
  · rfl

/-- C2 (amended): for every Tag Scan, the Parsed Intent's url field is the
uri of the last URI record in record order (each URI record overwrites the
previous value); earlier URI records are the ones ignored. -/
theorem c2_url_is_last_uri (records : List NdefRecord) :
    (parseRecords records).1.url = lastUri records := by
  have h := parse_url_aux records (ParsedIntent.init, [])
  unfold parseRecords
  rw [h]
  cases lastUri records <;> rfl

/-- C5: dispatching the `stop` control intent runs `stop_video` (clearing
any recorded video process handle), then issues the audio-stop transport
command, then unconditionally reports success — regardless of whether a
video was playing beforehand. -/
theorem c5_stop_control (env : Env) (s : BoxState) :
    handle_control env s "stop" =
        ((stop_video env s).1,
          (stop_video env s).2 ++
            [Effect.sonos ["stop"], Effect.sound "success", Effect.print "✅ stop"],
          false) ∧
      ((handle_control env s "stop").1).vlcProcess = none ∧
      Effect.sonos ["stop"] ∈ (handle_control env s "stop").2.1 := by
  refine ⟨rfl, stop_video_clears env s, ?_⟩
  have h : (handle_control env s "stop").2.1 =
      (stop_video env s).2 ++
        [Effect.sonos ["stop"], Effect.sound "success", Effect.print "✅ stop"] := rfl
  rw [h]
  simp

/-- C7: a tag with no NDEF payload short-circuits before parsing: the state
is untouched, the trace is exactly the scan cue, the invalid-tag report and
the error cue, and no transport primitive is called. -/
theorem c7_no_ndef_short_circuit (env : Env) (s : BoxState) :
    on_connect env s none =
        (s, [Effect.sound "scan", Effect.print "❌ Not a valid NDEF tag", Effect.sound "error"],
          true) ∧
      ((on_connect env s none).2.1.all fun e => !e.isTransport) = true := by
  exact ⟨rfl, rfl⟩

end MagicBox

namespace MagicBox

/-- C6: when the volume query succeeds returning `v`, `vol_up`
(delta = +5) sets the volume to `max 0 (min 60 (v + 5))` and `vol_down`
(delta = -5) sets it to `max 0 (min 60 (v - 5))`, each reporting the
resulting percentage; at the boundaries the adjustment is idempotent:
v = 60 stays 60 under `vol_up` and v = 0 stays 0 under `vol_down`. -/
theorem c6_volume_clamp (env : Env) (v : Int) (out err : String)
    (hq : env.sonos ["volume"] = (0, out, err)) (hv : pyInt? out = some v) :
    adjust_volume env 5 =
        ([Effect.sonos ["volume"],
          Effect.sonos ["volume", toString (max 0 (min 60 (v + 5)))],
          Effect.print ("🔊 " ++ toString (max 0 (min 60 (v + 5))) ++ "%")], false) ∧
      adjust_volume env (-5) =
        ([Effect.sonos ["volume"],
          Effect.sonos ["volume", toString (max 0 (min 60 (v - 5)))],
          Effect.print ("🔉 " ++ toString (max 0 (min 60 (v - 5))) ++ "%")], false) ∧
      (v = 60 → max 0 (min 60 (v + 5)) = 60) ∧
      (v = 0 → max 0 (min 60 (v - 5)) = 0) := by
  refine ⟨?_, ?_, ?_, ?_⟩
  · simp [adjust_volume, hq, hv]
  · simp [adjust_volume, hq, hv, sub_eq_add_neg]
  · rintro rfl
    decide
  · rintro rfl
    decide

/-- C6 witness: at current volume 30, `vol_up` sets 35 and reports it. -/
theorem c6_witness :
    adjust_volume envVol 5 =
      ([Effect.sonos ["volume"],
        Effect.sonos ["volume", toString (max 0 (min 60 ((30 : Int) + 5)))],
        Effect.print ("🔊 " ++ toString (max 0 (min 60 ((30 : Int) + 5))) ++ "%")], false) :=
  (c6_volume_clamp envVol 30 "30" "" rfl rfl).1

/-- C10: for every control token dispatched to an ad-hoc callable, the
success cue is emitted unconditionally after the callable returns:
`stop`/`tv_on`/`tv_off` always end with the success cue and the command
print; `vol_up`/`vol_down` do so whenever no exception propagated; in
particular this holds when every cec call raises (so `tv_on` returns
`False`), and when the volume query fails, in which case no set-volume
call and no percentage print occur at all yet the success cue still
fires. -/
theorem c10_callable_success_cue (env : Env) (s : BoxState) :
    (∀ cmd ∈ (["stop", "tv_on", "tv_off"] : List String),
        ∃ t0, (handle_control env s cmd).2.1 =
          t0 ++ [Effect.sound "success", Effect.print ("✅ " ++ cmd)]) ∧
      (∀ cmd ∈ (["vol_up", "vol_down"] : List String),
        (handle_control env s cmd).2.2 = false →
        ∃ t0, (handle_control env s cmd).2.1 =
          t0 ++ [Effect.sound "success", Effect.print ("✅ " ++ cmd)]) ∧
      (env.cecRaises = true →
        (tv_on env).1 = false ∧
          (handle_control env s "tv_on").2.1 =
            (tv_on env).2 ++ [Effect.sound "success", Effect.print "✅ tv_on"]) ∧
      (∀ c out err, env.sonos ["volume"] = (c, out, err) → ¬(c = 0) →
        (handle_control env s "vol_up").2.1 =
          [Effect.sonos ["volume"], Effect.sound "success", Effect.print "✅ vol_up"]) := by
  refine ⟨?_, ?_, ?_, ?_⟩
  · intro cmd hc
    simp only [List.mem_cons, List.mem_singleton] at hc
    rcases hc with rfl | rfl | rfl | hc
    · exact ⟨(stop_video env s).2 ++ [Effect.sonos ["stop"]], by simp [handle_control]⟩
    · exact ⟨(tv_on env).2, by simp [handle_control]⟩
    · exact ⟨(tv_off env).2, by simp [handle_control]⟩
    · simp at hc
  · intro cmd hc hret
    simp only [List.mem_cons, List.mem_singleton] at hc
    rcases hc with rfl | rfl | hc
    · cases hval : (adjust_volume env 5).2
      · exact ⟨(adjust_volume env 5).1, by simp [handle_control, hval]⟩
      · simp [handle_control, hval] at hret
    · cases hval : (adjust_volume env (-5)).2
      · exact ⟨(adjust_volume env (-5)).1, by simp [handle_control, hval]⟩
      · simp [handle_control, hval] at hret
    · simp at hc
  · intro hcec
    constructor
    · simp [tv_on, is_tv_on, hcec]
    · rfl
  · intro c out err hq hc0
    have hadj : adjust_volume env 5 = ([Effect.sonos ["volume"]], false) := by
      simp [adjust_volume, hq, hc0]
    simp [handle_control, hadj]

/-- C10 witness: in the environment whose volume query fails, the `vol_up`
callable performs only the query yet the success cue fires. -/
theorem c10_witness :
    ∃ t0, (handle_control envVol stateA "tv_on").2.1 =
      t0 ++ [Effect.sound "success", Effect.print ("✅ " ++ "tv_on")] :=
  (c10_callable_success_cue envVol stateA).1 "tv_on" (by simp)

end MagicBox

namespace MagicBox

theorem on_connect_some (env : Env) (s : BoxState) (records : List NdefRecord) :
    on_connect env s (some records) =
      ((dispatch env s records (parseRecords records).1).1,
       Effect.sound "scan" :: ((parseRecords records).2 ++
         (dispatch env s records (parseRecords records).1).2.1),
       (dispatch env s records (parseRecords records).1).2.2) := rfl

theorem dispatch_video (env : Env) (s : BoxState) (records : List NdefRecord)
    (acc : ParsedIntent) (hct : acc.content_type = some "video")
    (hurl : pyTruthy acc.url = true) :
    dispatch env s records acc =
      ((play_video env s (acc.url.getD "") acc.card_name).1,
       (play_video env s (acc.url.getD "") acc.card_name).2.1 ++
         [Effect.sound (if (play_video env s (acc.url.getD "") acc.card_name).2.2
             then "success" else "error")],
       true) := by
  simp [dispatch, hct, hurl]

theorem dispatch_unsupported (env : Env) (s : BoxState) (records : List NdefRecord)
    (acc : ParsedIntent) (h1 : ¬acc.content_type = some "video")
    (h2 : pyTruthy acc.url = true) (h3 : allowMatch (acc.url.getD "") = false) :
    dispatch env s records acc =
      (s, [Effect.print "❌ No supported content found on tag", Effect.sound "error"], true) := by
  simp [dispatch, h1, h2, h3]

theorem play_video_effects (env : Env) (s : BoxState) (url : String) (title : Option String) :
    ((play_video env s url title).2.1.any Effect.isLaunchVlc) = true ∧
      ((play_video env s url title).2.1.any Effect.isShareLinkCall) = false ∧
      ((play_video env s url title).2.1.any Effect.isClearQueueCall) = false := by
  obtain ⟨tvR, cecR, grace, nh, sf⟩ := env
  cases hv : s.vlcProcess <;> cases tvR <;> cases cecR <;> cases grace <;>
    simp [play_video, stop_video, tv_on, is_tv_on, hv, Effect.isLaunchVlc,
      Effect.isShareLinkCall, Effect.isClearQueueCall]

/-- C3 counterexample: two Tag Scans each containing a `type:video` text
record and a URI record which the dispatcher does not send to the video
branch: with a later `type:audio` record and an allow-listed URI the
audio-stream action (`play_sharelink`) runs and no renderer is launched;
with an empty-string URI no renderer is launched either. -/
theorem c3_counterexample :
    ((on_connect envA stateA (some [NdefRecord.text "type:video", NdefRecord.text "type:audio",
        NdefRecord.uri "https://open.spotify.com/x"])).2.1.any Effect.isShareLinkCall = true ∧
      (on_connect envA stateA (some [NdefRecord.text "type:video", NdefRecord.text "type:audio",
        NdefRecord.uri "https://open.spotify.com/x"])).2.1.any Effect.isLaunchVlc = false) ∧
      (on_connect envA stateA
        (some [NdefRecord.text "type:video", NdefRecord.uri ""])).2.1.any Effect.isLaunchVlc =
        false := by
  refine ⟨⟨?_, ?_⟩, ?_⟩ <;> decide

/-- C3 (amended): for every Tag Scan whose parsed `content_type` is
`video` (i.e. whose last `type:` record is `type:video`) and whose parsed
url (last URI record) is non-empty, dispatch selects the video-stream
action — the renderer is launched — and never the audio-stream action
(no `play_sharelink`, no `clear_queue`), even when the URI matches the
streaming-service allow-list. -/
theorem c3_video_branch (env : Env) (s : BoxState) (records : List NdefRecord)
    (hct : (parseRecords records).1.content_type = some "video")
    (hurl : pyTruthy (parseRecords records).1.url = true) :
    ((on_connect env s (some records)).2.1.any Effect.isLaunchVlc) = true ∧
      ((on_connect env s (some records)).2.1.any Effect.isShareLinkCall) = false ∧
      ((on_connect env s (some records)).2.1.any Effect.isClearQueueCall) = false := by
  rw [on_connect_some, dispatch_video env s records (parseRecords records).1 hct hurl]
  obtain ⟨hps, hpc, hpl⟩ := prints_no_audio_video (parseRecords_trace_prints records)
  obtain ⟨pvl, pvs, pvc⟩ := play_video_effects env s
    ((parseRecords records).1.url.getD "") (parseRecords records).1.card_name
  refine ⟨?_, ?_, ?_⟩ <;>
    simp [List.any_append, hps, hpc, hpl, pvl, pvs, pvc, Effect.isLaunchVlc,
      Effect.isShareLinkCall, Effect.isClearQueueCall]

/-- C3 witness: a scan whose only type record is `type:video` with a
non-empty URI launches the renderer. -/
theorem c3_witness :
    ((on_connect envA stateA (some [NdefRecord.text "type:video",
        NdefRecord.uri "http://jellyfin.local/stream/1"])).2.1.any Effect.isLaunchVlc) = true :=
  (c3_video_branch envA stateA
    [NdefRecord.text "type:video", NdefRecord.uri "http://jellyfin.local/stream/1"]
    (by rfl) (by rfl)).1

/-- C4: for every Tag Scan whose parsed URI is non-empty and fails the
allow-list prefix test, and which carries no `type:video` text record,
dispatch reports "no supported content", plays the error cue, leaves the
state untouched, and the whole trace contains no transport call — even if
the scan also carries a recognized bare command token (the bare-command
branch requires the url to be falsy). -/
theorem c4_offlist_unsupported (env : Env) (s : BoxState) (records : List NdefRecord)
    (u : String) (hurl : (parseRecords records).1.url = some u) (hne : ¬u = "")
    (hallow : allowMatch u = false)
    (hnotype : ∀ t, NdefRecord.text t ∈ records → ¬pyLower t = "type:video") :
    on_connect env s (some records) =
        (s, Effect.sound "scan" :: ((parseRecords records).2 ++
          [Effect.print "❌ No supported content found on tag", Effect.sound "error"]), true) ∧
      ((on_connect env s (some records)).2.1.all fun e => !e.isTransport) = true := by
  have hct : ¬(parseRecords records).1.content_type = some "video" := by
    intro hv
    obtain ⟨t, htm, hlt⟩ := parse_content_type_src hv
    have hty : ("type:" ++ "video" : String) = "type:video" := by decide
    exact hnotype t htm (by rw [hlt, hty])
  have htruth : pyTruthy (parseRecords records).1.url = true := by
    rw [hurl]
    simp [pyTruthy, hne]
  have hgetd : (parseRecords records).1.url.getD "" = u := by
    rw [hurl]
    rfl
  have hd := dispatch_unsupported env s records (parseRecords records).1 hct htruth
    (by rw [hgetd]; exact hallow)
  have htr := prints_not_transport (parseRecords_trace_prints records)
  constructor
  · rw [on_connect_some, hd]
  · rw [on_connect_some, hd]
    simp only [List.all_cons, List.all_append, htr]
    rfl

/-- C4 witness: an off-list URI together with a recognized bare command
token still yields the unsupported report and no transport call. -/
theorem c4_witness :
    on_connect envA stateA (some [NdefRecord.text "stop", NdefRecord.uri "https://evil.com/x"]) =
      (stateA, [Effect.sound "scan", Effect.print "❌ No supported content found on tag",
        Effect.sound "error"], true) :=
  (c4_offlist_unsupported envA stateA [NdefRecord.text "stop", NdefRecord.uri "https://evil.com/x"]
    "https://evil.com/x" rfl (by decide) (by decide)
    (by
      intro t ht
      simp only [List.mem_cons, List.not_mem_nil, or_false] at ht
      rcases ht with ht | ht
      · cases ht
        decide
      · cases ht)).1

/-- C8: dispatching a video-stream intent (with the cec transport not
raising) performs, in order: the currently recorded video's teardown
(graceful terminate, forced kill only when the graceful wait fails, then
the stray-renderer sweep), the audio-transport stop, the display sequence
(power query, then input switch only when the display already reports on,
otherwise power on followed by input switch), then the non-blocking
renderer launch on the given URL; the new process handle is recorded in
the playback state and the function returns success. -/
theorem c8_play_video_sequence (env : Env) (s : BoxState) (url : String)
    (title : Option String) (hc : env.cecRaises = false) :
    play_video env s url title =
      ({ vlcProcess := some env.newHandle },
       [Effect.print ("🎬 Playing video: " ++ pyOrStr title url)] ++
         (match s.vlcProcess with
          | some _ =>
            [Effect.print "⏹️ Stopping video...", Effect.vlcTerminate] ++
              (if env.gracefulTermOk then [] else [Effect.vlcKill]) ++ [Effect.pkillVlc]
          | none => [Effect.pkillVlc]) ++
         [Effect.sonos ["stop"]] ++
         (if env.tvReportsOn then
            [Effect.cec "pow 0", Effect.print "📺 TV already on, switching input...",
             Effect.cec "as", Effect.print "✅ TV ready"]
          else
            [Effect.cec "pow 0", Effect.print "📺 Turning on TV...", Effect.cec "on 0",
             Effect.print "📺 Waiting 3 seconds...", Effect.print "📺 Switching to Pi input...",
             Effect.cec "as", Effect.print "✅ TV ready"]) ++
         [Effect.launchVlc url, Effect.print "✅ Video playing (scan another card to control)"],
       true) := by
  cases hv : s.vlcProcess <;> cases hg : env.gracefulTermOk <;> cases ht : env.tvReportsOn <;>
    simp [play_video, stop_video, tv_on, is_tv_on, hv, hg, ht, hc]

/-- C8 witness: with a video already recorded and the TV reporting on, the
full sequence at a concrete input. -/
theorem c8_witness :
    play_video envA { vlcProcess := some 3 } "http://jellyfin.local/stream/1" none =
      ({ vlcProcess := some 7 },
       [Effect.print "🎬 Playing video: http://jellyfin.local/stream/1",
        Effect.print "⏹️ Stopping video...", Effect.vlcTerminate, Effect.pkillVlc,
        Effect.sonos ["stop"], Effect.cec "pow 0",
        Effect.print "📺 TV already on, switching input...", Effect.cec "as",
        Effect.print "✅ TV ready", Effect.launchVlc "http://jellyfin.local/stream/1",
        Effect.print "✅ Video playing (scan another card to control)"], true) := by
  have h := c8_play_video_sequence envA { vlcProcess := some 3 }
    "http://jellyfin.local/stream/1" none rfl
  simpa using h

end MagicBox

namespace MagicBox

/-- C9: text-record parsing rules.  (1) The identifier is matched
case-insensitively and a `name` record stores the content with its
original casing, discarding only the identifier prefix, and prints the
card line.  (2) A `mode` record whose content equals `shuffle` sets
`shuffle := true`.  (3) A `type` record stores the lower-cased content.
(4) A stored `content_type` other than `audio`/`video` is treated by the
dispatcher exactly like no type at all.  (5) The scan with text records
`name:Road Trip` and `type:audio` and the Spotify playlist URI dispatches
as an audio-stream intent with title "Road Trip" and shuffle off. -/
theorem c9_text_record_parsing :
    (∀ (acc : ParsedIntent) (id c : String), ':' ∉ id.data → pyLower id = "name" →
        processRecord acc (NdefRecord.text (id ++ ":" ++ c)) =
          ({ acc with card_name := some c }, [Effect.print ("\n💳 Card: " ++ c)])) ∧
      (∀ (acc : ParsedIntent) (id : String), ':' ∉ id.data → pyLower id = "mode" →
        processRecord acc (NdefRecord.text (id ++ ":" ++ "shuffle")) =
          ({ acc with shuffle := true }, [])) ∧
      (∀ (acc : ParsedIntent) (id c : String), ':' ∉ id.data → pyLower id = "type" →
        processRecord acc (NdefRecord.text (id ++ ":" ++ c)) =
          ({ acc with content_type := some (pyLower c) }, [])) ∧
      (∀ (env : Env) (s : BoxState) (records : List NdefRecord) (acc : ParsedIntent)
          (ct : String), ¬ct = "audio" → ¬ct = "video" →
        dispatch env s records { acc with content_type := some ct } =
          dispatch env s records { acc with content_type := none }) ∧
      on_connect envA stateA (some [NdefRecord.text "name:Road Trip",
          NdefRecord.text "type:audio", NdefRecord.uri "https://open.spotify.com/playlist/xyz"]) =
        (stateA,
         [Effect.sound "scan", Effect.print "\n💳 Card: Road Trip", Effect.pkillVlc,
          Effect.print "📺 Turning off TV...", Effect.cec "standby 0",
          Effect.sonos ["clear_queue"],
          Effect.sonos ["play_sharelink", "https://open.spotify.com/playlist/xyz"],
          Effect.sonos ["shuffle", "off"], Effect.print "▶️ Playing: Road Trip",
          Effect.sound "success"], true) := by
  have hsplit2 : ∀ (id c : String), ':' ∉ id.data →
      splitC (id ++ ":" ++ c) = some (id, c) ∧
        splitC (pyLower (id ++ ":" ++ c)) = some (pyLower id, pyLower c) := by
    intro id c hc
    refine ⟨splitC_of_append id c hc, ?_⟩
    have hlow : pyLower (id ++ ":" ++ c) = pyLower id ++ ":" ++ pyLower c := by
      rw [pyLower_append, pyLower_append, pyLower_colon]
    rw [hlow]
    exact splitC_of_append _ _ (colon_not_mem_pyLower hc)
  refine ⟨?_, ?_, ?_, ?_, ?_⟩
  · intro acc id c hc hname
    obtain ⟨h1, h2⟩ := hsplit2 id c hc
    simp [processRecord, h1, h2, hname]
  · intro acc id hc hmode
    obtain ⟨h1, h2⟩ := hsplit2 id "shuffle" hc
    have hs : pyLower "shuffle" = "shuffle" := by decide
    simp [processRecord, h1, h2, hmode, hs]
  · intro acc id c hc htype
    obtain ⟨h1, h2⟩ := hsplit2 id c hc
    simp [processRecord, h1, h2, htype]
  · intro env s records acc ct haud hvid
    simp [dispatch, hvid]
  · decide

/-- C9 witness: `Name:Road Trip` (capitalized identifier) stores the
content with its casing preserved. -/
theorem c9_witness :
    processRecord ParsedIntent.init (NdefRecord.text ("Name" ++ ":" ++ "Road Trip")) =
      ({ ParsedIntent.init with card_name := some "Road Trip" },
        [Effect.print ("\n💳 Card: " ++ "Road Trip")]) :=
  c9_text_record_parsing.1 ParsedIntent.init "Name" "Road Trip" (by decide) (by decide)

end MagicBox
